import Mathlib

set_option maxRecDepth 10000

/-!
Verification of the nc-read repository's core routines, shallowly embedded.

The repository's scripts operate on xarray datasets: 2-D latitude x longitude
grids of floating-point values where NaN is the "no measurement" sentinel.
We embed such a grid dataset as lists of rational coordinates and rows of
`Option` values (`none` = the NaN sentinel); the comparisons the code performs
are order comparisons only, so rationals model the float coordinates faithfully
on the inputs of interest.
-/

namespace NCRead

/-- A grid cell value: `none` models the NaN sentinel, `some x` a measurement. -/
abbrev Val := Option ℚ

/-- One row of a 2-D variable (one latitude index, all longitudes). -/
abbrev Row := List Val

/-- A 2-D variable: outer index latitude, inner index longitude,
matching `dims=('lat','lon')` of the datasets the scripts process. -/
abbrev Vals := List Row

/-- The `SEATTLE_BBOX` dict shape: four floats west/south/east/north. -/
structure BBox where
  west : ℚ
  south : ℚ
  east : ℚ
  north : ℚ

/-- A named data variable: its values plus its attribute dict
(e.g. `long_name`), attributes as string key/value pairs. -/
structure NCVar where
  vals : Vals
  attrs : List (String × String)

/-- An xarray dataset as the scripts use it: coordinate names (`ds.coords`),
the latitude and longitude axis arrays, the data variables (`ds.data_vars`,
an insertion-ordered name-to-variable mapping), and global attributes
(`ds.attrs`). -/
structure Dataset where
  coords : List String
  lats : List ℚ
  lons : List ℚ
  data_vars : List (String × NCVar)
  attrs : List (String × String)

/-- `SEATTLE_BBOX` from nc_check_not_empty_data_dir_files.py /
nc_read_convert_geojson.py / nc_read_convert.py. -/
def SEATTLE_BBOX : BBox := { west := -122.4, south := 47.4, east := -122.2, north := 47.7 }

/-- The variable names of a dataset, `ds.data_vars` keys in order. -/
def varNames (ds : Dataset) : List String := ds.data_vars.map Prod.fst

/-- `dict.get(key, default)` on an attribute mapping. -/
def attrGet (a : List (String × String)) (k d : String) : String := (a.lookup k).getD d

/-- The attribute dict of variable `v` (empty when `v` is absent). -/
def varAttrs (ds : Dataset) (v : String) : List (String × String) :=
  ((ds.data_vars.lookup v).map NCVar.attrs).getD []

/-- The values of variable `v` (empty when `v` is absent), `ds[v]`. -/
def getVals (ds : Dataset) (v : String) : Vals :=
  ((ds.data_vars.lookup v).map NCVar.vals).getD []

/-- `ds[v].size`: the total number of cells of the (possibly filtered)
variable. -/
def varSize (vs : Vals) : ℕ := (vs.map List.length).sum

/-- `ds[v].count().item()`: xarray `count` counts the non-NaN cells. -/
def validCount (vs : Vals) : ℕ := (vs.map (fun r => r.countP Option.isSome)).sum

/-- `AOD_VARIABLE_CANDIDATES` of nc_check_not_empty_data_dir_files.py. -/
def AOD_VARIABLE_CANDIDATES : List String :=
  ["Aerosol_Optical_Depth_550",
   "COMBINE_AOD_550_AVG",
   "DT_AOD_550_AVG",
   "DB_AOD_550_AVG",
   "DT_DB_AOD_550_AVG",
   "DB_DT_AOD_550_AVG",
   "Optical_Depth_Land_And_Ocean",
   "AOD_550nm_Combined_Mean",
   "Aerosol_Optical_Depth_550nm_Mean",
   "AOD_550nm",
   "Deep_Blue_Aerosol_Optical_Depth_550_Land_Mean",
   "Dark_Target_Aerosol_Optical_Depth_550_Ocean_Mean"]

/-- `AOD_VARIABLE_CANDIDATES` of nc_read_convert_geojson.py (two names
shorter than the checker's list). -/
def AOD_VARIABLE_CANDIDATES_GEOJSON : List String :=
  ["Aerosol_Optical_Depth_550",
   "COMBINE_AOD_550_AVG",
   "DT_AOD_550_AVG",
   "DB_AOD_550_AVG",
   "DT_DB_AOD_550_AVG",
   "DB_DT_AOD_550_AVG",
   "Optical_Depth_Land_And_Ocean",
   "AOD_550nm_Combined_Mean",
   "Aerosol_Optical_Depth_550nm_Mean",
   "AOD_550nm"]

/-- `AEROSOL_VAR_NAME` of nc_read_convert.py. -/
def AEROSOL_VAR_NAME : String := "Aerosol_Optical_Depth_550"

/-- The candidate-scan loop shared by find_aod_variable
(nc_read_convert_geojson.py) and check_file_for_data (checker, step 1):
return the first candidate, in the supplied order, present among the
dataset's variable names. -/
def find_variable (cands names : List String) : Option String :=
  cands.find? (fun c => names.contains c)

/-- find_aod_variable of nc_read_convert_geojson.py. -/
def find_aod_variable (ds : Dataset) : Option String :=
  find_variable AOD_VARIABLE_CANDIDATES_GEOJSON (varNames ds)

/-- The latitude alias priority list of find_coordinates
(nc_read_convert_geojson.py lines 181-184) and of the checker (lines 64-67). -/
def latNamesList : List String := ["lat", "latitude", "Latitude", "LAT"]

/-- The longitude alias priority list of find_coordinates and the checker. -/
def lonNamesList : List String := ["lon", "longitude", "Longitude", "LON"]

/-- find_coordinates of nc_read_convert_geojson.py (the checker inlines the
same two loops): per axis, the first alias found among `ds.coords`. -/
def find_coordinates (ds : Dataset) : Option String × Option String :=
  (latNamesList.find? (fun n => ds.coords.contains n),
   lonNamesList.find? (fun n => ds.coords.contains n))

/-- The alias lists of nc_read.py save_data option 5 (lines 96-97): note
`latitude` is tried before `lat` and `longitude` before `lon`, unlike
find_coordinates. -/
def ncRead_latNames : List String := ["latitude", "lat", "Latitude", "LAT"]

/-- nc_read.py's longitude alias priority list. -/
def ncRead_lonNames : List String := ["longitude", "lon", "Longitude", "LON"]

/-- The coordinate resolution of nc_read.py save_data option 5. -/
def ncRead_find_coordinates (ds : Dataset) : Option String × Option String :=
  (ncRead_latNames.find? (fun n => ds.coords.contains n),
   ncRead_lonNames.find? (fun n => ds.coords.contains n))

/-- The caller-side combination used by export_to_geojson and the checker:
both axes must resolve, otherwise the file is rejected (`NotFound`). -/
def resolve_coordinates (ds : Dataset) : Option (String × String) :=
  match find_coordinates ds with
  | (some la, some lo) => some (la, lo)
  | _ => none

/-- The latitude half of the bounding-box condition,
`(ds[lat] >= bbox.south) & (ds[lat] <= bbox.north)`. -/
def inLatB (b : BBox) (la : ℚ) : Bool := decide (b.south ≤ la) && decide (la ≤ b.north)

/-- The longitude half of the bounding-box condition,
`(ds[lon] >= bbox.west) & (ds[lon] <= bbox.east)`. -/
def inLonB (b : BBox) (lo : ℚ) : Bool := decide (b.west ≤ lo) && decide (lo ≤ b.east)

/-- The broadcast boolean mask at a cell: the conjunction of all four
inclusive comparisons of the `ds.where(...)` condition. -/
def bboxMask (b : BBox) (la lo : ℚ) : Bool := inLatB b la && inLonB b lo

/-- Propositional form of the latitude condition. -/
def InLat (b : BBox) (la : ℚ) : Prop := b.south ≤ la ∧ la ≤ b.north

/-- Propositional form of the longitude condition. -/
def InLon (b : BBox) (lo : ℚ) : Prop := b.west ≤ lo ∧ lo ≤ b.east

instance (b : BBox) (la : ℚ) : Decidable (InLat b la) := by
  unfold InLat
  infer_instance

instance (b : BBox) (lo : ℚ) : Decidable (InLon b lo) := by
  unfold InLon
  infer_instance

lemma inLatB_iff (b : BBox) (la : ℚ) : inLatB b la = true ↔ InLat b la := by
  simp [inLatB, InLat]

lemma inLonB_iff (b : BBox) (lo : ℚ) : inLonB b lo = true ↔ InLon b lo := by
  simp [inLonB, InLon]

lemma bboxMask_iff (b : BBox) (la lo : ℚ) :
    bboxMask b la lo = true ↔ InLat b la ∧ InLon b lo := by
  simp [bboxMask, inLatB_iff, inLonB_iff]

/-- With `drop=True`, xarray keeps a latitude index exactly when the mask has
a `True` cell somewhere in that row (`np.unique(np.nonzero(mask))` per
dimension). -/
def rowKept (b : BBox) (lons : List ℚ) (la : ℚ) : Bool :=
  lons.any (fun lo => bboxMask b la lo)

/-- With `drop=True`, xarray keeps a longitude index exactly when the mask has
a `True` cell somewhere in that column. -/
def colKept (b : BBox) (lats : List ℚ) (lo : ℚ) : Bool :=
  lats.any (fun la => bboxMask b la lo)

lemma rowKept_iff (b : BBox) (lons : List ℚ) (la : ℚ) :
    rowKept b lons la = true ↔ InLat b la ∧ ∃ lo ∈ lons, InLon b lo := by
  simp only [rowKept, List.any_eq_true, bboxMask_iff]
  constructor
  · rintro ⟨lo, hlo, hla, hin⟩
    exact ⟨hla, lo, hlo, hin⟩
  · rintro ⟨hla, lo, hlo, hin⟩
    exact ⟨lo, hlo, hla, hin⟩

lemma colKept_iff (b : BBox) (lats : List ℚ) (lo : ℚ) :
    colKept b lats lo = true ↔ InLon b lo ∧ ∃ la ∈ lats, InLat b la := by
  simp only [colKept, List.any_eq_true, bboxMask_iff]
  constructor
  · rintro ⟨la, hla, hin, hlo⟩
    exact ⟨hlo, la, hla, hin⟩
  · rintro ⟨hlo, la, hla, hin⟩
    exact ⟨la, hla, hin, hlo⟩

/-- The effect of `ds.where(mask, drop=True)` on one 2-D variable: rows and
columns with no `True` mask cell are dropped, and any remaining cell whose
mask is `False` becomes the NaN sentinel (for this separable mask the second
step never fires, but it is part of the `where` semantics being embedded). -/
def whereDropVals (b : BBox) (lats lons : List ℚ) (vs : Vals) : Vals :=
  ((lats.zip vs).filter (fun p => rowKept b lons p.1)).map (fun p =>
    ((lons.zip p.2).filter (fun q => colKept b lats q.1)).map (fun q =>
      if bboxMask b p.1 q.1 then q.2 else none))

/-- The effect of `where(..., drop=True)` on one named variable's record. -/
def whereDropVar (b : BBox) (lats lons : List ℚ) (nv : NCVar) : NCVar :=
  { vals := whereDropVals b lats lons nv.vals, attrs := nv.attrs }

/-- `ds.where((lat >= south) & (lat <= north) & (lon >= west) & (lon <= east),
drop=True)`: coordinate arrays are clipped to the indices where the mask is
`True` somewhere, and every data variable is filtered accordingly.  Variable
names, coordinate names and attributes survive unchanged. -/
def Dataset.whereDrop (b : BBox) (ds : Dataset) : Dataset :=
  { coords := ds.coords
    lats := ds.lats.filter (fun la => rowKept b ds.lons la)
    lons := ds.lons.filter (fun lo => colKept b ds.lats lo)
    data_vars := ds.data_vars.map (fun w => (w.1, whereDropVar b ds.lats ds.lons w.2))
    attrs := ds.attrs }

/-- The validator of check_file_for_data (steps 3-5, lines 83-104): filter to
the box, answer `(False, 0)` when the variable is gone or zero-size after
filtering, `(False, 0)` when its non-NaN count is zero, and otherwise
`(True, count)`, returning the filtered view alongside. -/
def validate_in_bbox (ds : Dataset) (v : String) (b : BBox) : Bool × ℕ × Dataset :=
  let f := Dataset.whereDrop b ds
  if !(varNames f).contains v || varSize (getVals f v) == 0 then
    (false, 0, f)
  else
    let c := validCount (getVals f v)
    if 0 < c then (true, c, f) else (false, 0, f)

/-- One extracted observation: `ds_filtered[v].to_dataframe().dropna()`
yields one row per non-NaN cell, indexed by (latitude, longitude). -/
structure PointFeature where
  lat : ℚ
  lon : ℚ
  value : ℚ
deriving DecidableEq

/-- The rows of `ds_filtered[v].to_dataframe().dropna()` in iteration order:
row-major over the (lat, lon) multi-index, NaN rows removed. -/
def extract_points (ds : Dataset) (v : String) : List PointFeature :=
  (ds.lats.zip (getVals ds v)).flatMap (fun p =>
    (ds.lons.zip p.2).filterMap (fun q =>
      q.2.map (fun x => { lat := p.1, lon := q.1, value := x })))

/-- A GeoJSON `geometry` member: `{"type": "Point", "coordinates": [lon, lat]}`. -/
structure PointGeometry where
  type : String
  coordinates : List ℚ
deriving DecidableEq

/-- A GeoJSON feature's `properties` member: the measurement under the `aod`
key together with echoed `lat` and `lon`. -/
structure FeatureProperties where
  aod : ℚ
  lat : ℚ
  lon : ℚ
deriving DecidableEq

/-- One member of the `features` array. -/
structure GeoFeature where
  type : String
  geometry : PointGeometry
  properties : FeatureProperties
deriving DecidableEq

/-- The top-level GeoJSON document: `type`, `metadata` (a string dict,
embedded as ordered key/value pairs) and `features`. -/
structure FeatureCollection where
  type : String
  metadata : List (String × String)
  features : List GeoFeature
deriving DecidableEq

/-- The feature dict built per dataframe row (nc_read_convert_geojson.py
lines 274-285 and nc_read_convert.py lines 200-211). -/
def mkFeature (p : PointFeature) : GeoFeature :=
  { type := "Feature"
    geometry := { type := "Point", coordinates := [p.lon, p.lat] }
    properties := { aod := p.value, lat := p.lat, lon := p.lon } }

/-- The `metadata` dict of export_to_geojson in nc_read_convert_geojson.py
(lines 219-225); `basename` stands for `os.path.basename(nc_filepath)`. -/
def geojson_metadata (ds : Dataset) (basename v : String) : List (String × String) :=
  [("source_product", attrGet ds.attrs "product_name" basename),
   ("time_start", attrGet ds.attrs "time_coverage_start"
      (attrGet ds.attrs "RangeBeginningDate" "N/A")),
   ("time_end", attrGet ds.attrs "time_coverage_end"
      (attrGet ds.attrs "RangeEndingDate" "N/A")),
   ("variable_description", attrGet (varAttrs ds v) "long_name" "Aerosol Optical Depth"),
   ("variable_name", v)]

/-- export_to_geojson of nc_read_convert_geojson.py, up to the JSON document
it serializes: `none` models every early `return` (no variable, no
coordinates, nothing in the box, all values NaN). -/
def export_to_geojson (b : BBox) (ds : Dataset) (basename : String) :
    Option FeatureCollection :=
  match find_aod_variable ds with
  | none => none
  | some v =>
    match resolve_coordinates ds with
    | none => none
    | some _ =>
      let md := geojson_metadata ds basename v
      let f := Dataset.whereDrop b ds
      if !(varNames f).contains v || varSize (getVals f v) == 0 then none
      else
        let pts := extract_points f v
        if pts.isEmpty then none
        else some { type := "FeatureCollection", metadata := md, features := pts.map mkFeature }

/-- The `metadata` dict of export_to_geojson in nc_read_convert.py
(lines 155-160): four keys, no `variable_name` entry. -/
def convert_metadata (ds : Dataset) (basename : String) : List (String × String) :=
  [("source_product", attrGet ds.attrs "product_name" basename),
   ("time_start", attrGet ds.attrs "time_coverage_start" "N/A"),
   ("time_end", attrGet ds.attrs "time_coverage_end" "N/A"),
   ("variable_description", attrGet (varAttrs ds AEROSOL_VAR_NAME) "long_name"
      (attrGet (varAttrs ds AEROSOL_VAR_NAME) "description" "Aerosol Optical Depth"))]

/-- export_to_geojson of nc_read_convert.py: fixed variable name, coordinates
accessed as `ds.lat` / `ds.lon` (the exception when either attribute is
missing is caught and modelled as `none`). -/
def convert_export_to_geojson (b : BBox) (ds : Dataset) (basename : String) :
    Option FeatureCollection :=
  if !(varNames ds).contains AEROSOL_VAR_NAME then none
  else
    let md := convert_metadata ds basename
    if !(ds.coords.contains "lat") || !(ds.coords.contains "lon") then none
    else
      let f := Dataset.whereDrop b ds
      if !(varNames f).contains AEROSOL_VAR_NAME
          || varSize (getVals f AEROSOL_VAR_NAME) == 0 then none
      else
        let pts := extract_points f AEROSOL_VAR_NAME
        if pts.isEmpty then none
        else some { type := "FeatureCollection", metadata := md, features := pts.map mkFeature }

/-- Re-applying the bounding-box condition to an already extracted point
list: keep the points whose coordinates satisfy the same four comparisons. -/
def filter_points (b : BBox) (pts : List PointFeature) : List PointFeature :=
  pts.filter (fun p => bboxMask b p.lat p.lon)

/-- The full per-file check of check_file_for_data: resolve the AOD variable
over the candidate list, resolve the coordinate names, then validate; a failed
resolution prints a diagnostic and answers `False`. -/
def check_file_for_data (b : BBox) (cands : List String) (ds : Dataset) : Bool :=
  match cands.find? (fun c => (varNames ds).contains c) with
  | none => false
  | some v =>
    match find_coordinates ds with
    | (some _, some _) => (validate_in_bbox ds v b).1
    | _ => false

/-- The cell list of a 2-D variable in row-major order, each cell tagged with
its latitude and longitude coordinate values. -/
def cells (lats lons : List ℚ) (vs : Vals) : List (ℚ × ℚ × Val) :=
  (lats.zip vs).flatMap (fun p => (lons.zip p.2).map (fun q => (p.1, q.1, q.2)))

/-- Well-formedness of a variable against the axes: one row per latitude, one
entry per longitude (what xarray guarantees for a `dims=('lat','lon')`
variable). -/
def WF (ds : Dataset) (v : String) : Prop :=
  (getVals ds v).length = ds.lats.length ∧ ∀ r ∈ getVals ds v, r.length = ds.lons.length

instance (ds : Dataset) (v : String) : Decidable (WF ds v) := by
  unfold WF
  infer_instance

/-- The 2x2 test grid of tests/unit/test_nc_scripts.py with one valid point
(spec Scenario A): latitudes [47.5, 47.6], longitudes [-122.3, -122.2],
values [[0.15, NaN], [NaN, NaN]]. -/
def scenarioA : Dataset :=
  { coords := ["lat", "lon"]
    lats := [47.5, 47.6]
    lons := [-122.3, -122.2]
    data_vars := [("Aerosol_Optical_Depth_550",
      { vals := [[some 0.15, none], [none, none]]
        attrs := [("units", "1"), ("long_name", "Aerosol optical thickness at 550 nm")] })]
    attrs := [] }

/-- Scenario B: the same grid with every value NaN. -/
def scenarioB : Dataset :=
  { scenarioA with
    data_vars := [("Aerosol_Optical_Depth_550",
      { vals := [[none, none], [none, none]]
        attrs := [("units", "1"), ("long_name", "Aerosol optical thickness at 550 nm")] })] }

lemma bool_eq_of_iff {a b : Bool} (h : a = true ↔ b = true) : a = b := by
  cases a <;> cases b <;> simp_all

lemma lookup_map_val {β γ : Type} (f : β → γ) (l : List (String × β)) (k : String) :
    (l.map (fun p => (p.1, f p.2))).lookup k = (l.lookup k).map f := by
  induction l with
  | nil => rfl
  | cons p t ih =>
    by_cases h : k == p.1 <;> simp [List.lookup, h, ih]

lemma varNames_whereDrop (b : BBox) (ds : Dataset) :
    varNames (Dataset.whereDrop b ds) = varNames ds := by
  simp [varNames, Dataset.whereDrop]

lemma whereDropVals_nil (b : BBox) (lats lons : List ℚ) :
    whereDropVals b lats lons [] = [] := by
  simp [whereDropVals]

lemma getVals_whereDrop (b : BBox) (ds : Dataset) (v : String) :
    getVals (Dataset.whereDrop b ds) v = whereDropVals b ds.lats ds.lons (getVals ds v) := by
  unfold getVals Dataset.whereDrop
  rw [lookup_map_val (whereDropVar b ds.lats ds.lons)]
  cases ds.data_vars.lookup v with
  | none => simp [whereDropVals_nil]
  | some nv => rfl

lemma filter_zip_map {β γ : Type} (P : ℚ → Bool) (f : ℚ × β → γ) :
    ∀ (as : List ℚ) (bs : List β), as.length = bs.length →
      (as.filter P).zip (((as.zip bs).filter (fun p => P p.1)).map f)
        = ((as.zip bs).filter (fun p => P p.1)).map (fun p => (p.1, f p))
  | [], bs, _ => by simp
  | a :: as, [], h => by simp at h
  | a :: as, b :: bs, h => by
    have h' : as.length = bs.length := by simpa using h
    by_cases hP : P a
    · simp [List.filter_cons, hP, filter_zip_map P f as bs h']
    · simp [List.filter_cons, hP, filter_zip_map P f as bs h']

lemma flatMap_of_map {α β γ : Type} (l : List α) (f : α → β) (g : β → List γ) :
    (l.map f).flatMap g = l.flatMap (fun a => g (f a)) := by
  induction l with
  | nil => rfl
  | cons a t ih => simp [ih]

lemma filter_flatMap {α γ : Type} (l : List α) (f : α → List γ) (P : γ → Bool) :
    ((l.flatMap f).filter P) = l.flatMap (fun a => (f a).filter P) := by
  induction l with
  | nil => rfl
  | cons a t ih => simp [List.filter_append, ih]

lemma flatMap_filter {α γ : Type} (l : List α) (R : α → Bool) (f : α → List γ) :
    (l.filter R).flatMap f = l.flatMap (fun a => if R a then f a else []) := by
  induction l with
  | nil => rfl
  | cons a t ih =>
    by_cases h : R a <;> simp [List.filter_cons, h, ih]

lemma flatMap_congr_mem {α γ : Type} {l : List α} {f g : α → List γ}
    (h : ∀ a ∈ l, f a = g a) : l.flatMap f = l.flatMap g := by
  induction l with
  | nil => rfl
  | cons a t ih =>
    simp only [List.flatMap_cons]
    rw [h a (List.mem_cons_self a t), ih (fun x hx => h x (List.mem_cons_of_mem a hx))]

lemma map_congr_mem {α γ : Type} {l : List α} {f g : α → γ}
    (h : ∀ a ∈ l, f a = g a) : l.map f = l.map g := by
  induction l with
  | nil => rfl
  | cons a t ih =>
    simp only [List.map_cons]
    rw [h a (List.mem_cons_self a t), ih (fun x hx => h x (List.mem_cons_of_mem a hx))]

lemma filter_congr_mem {α : Type} {l : List α} {p q : α → Bool}
    (h : ∀ a ∈ l, p a = q a) : l.filter p = l.filter q := by
  induction l with
  | nil => rfl
  | cons a t ih =>
    have ht := ih (fun x hx => h x (List.mem_cons_of_mem a hx))
    by_cases ha : p a
    · rw [List.filter_cons_of_pos ha, List.filter_cons_of_pos (h a (List.mem_cons_self a t) ▸ ha), ht]
    · rw [List.filter_cons_of_neg ha,
        List.filter_cons_of_neg (h a (List.mem_cons_self a t) ▸ ha), ht]

lemma filter_of_map {α γ : Type} (l : List α) (f : α → γ) (P : γ → Bool) :
    (l.map f).filter P = (l.filter (fun a => P (f a))).map f := by
  induction l with
  | nil => rfl
  | cons a t ih =>
    by_cases h : P (f a) <;> simp [List.filter_cons, h, ih]

lemma row_case (b : BBox) (lats lons : List ℚ) (r : Row) (la : ℚ)
    (hla : la ∈ lats) (hlen : r.length = lons.length) :
    (if rowKept b lons la then
        ((lons.filter (fun lo => colKept b lats lo)).zip
          (((lons.zip r).filter (fun q => colKept b lats q.1)).map
            (fun q => if bboxMask b la q.1 then q.2 else none))).map
          (fun q => (la, q.1, q.2))
      else ([] : List (ℚ × ℚ × Val)))
    = ((lons.zip r).filter (fun q => bboxMask b la q.1)).map (fun q => (la, q.1, q.2)) := by
  rw [filter_zip_map (fun lo => colKept b lats lo)
      (fun q => if bboxMask b la q.1 then q.2 else none) lons r hlen.symm]
  rw [List.map_map]
  by_cases hRK : rowKept b lons la = true
  · rw [if_pos hRK]
    obtain ⟨hInLat, lo₀, hlo₀, hInLon₀⟩ := (rowKept_iff b lons la).mp hRK
    have hfil : ∀ q ∈ lons.zip r, colKept b lats q.1 = bboxMask b la q.1 := by
      intro q _
      apply bool_eq_of_iff
      rw [colKept_iff, bboxMask_iff]
      constructor
      · rintro ⟨hq1, _⟩
        exact ⟨hInLat, hq1⟩
      · rintro ⟨_, hq1⟩
        exact ⟨hq1, la, hla, hInLat⟩
    rw [filter_congr_mem hfil]
    apply map_congr_mem
    intro q hq
    have hmask := (List.mem_filter.mp hq).2
    simp [Function.comp, hmask]
  · rw [if_neg hRK]
    have hnil : ∀ q ∈ lons.zip r, ¬ ((fun q : ℚ × Val => bboxMask b la q.1) q = true) := by
      intro q hq hmask
      apply hRK
      have hq1 : q.1 ∈ lons := by
        obtain ⟨x, y⟩ := q
        exact (List.of_mem_zip hq).1
      simp only [rowKept, List.any_eq_true]
      exact ⟨q.1, hq1, hmask⟩
    rw [List.filter_eq_nil_iff.mpr hnil, List.map_nil]

/-- The cell-level semantics of the bounding-box filter: on a well-formed
variable, `where(..., drop=True)` keeps exactly the cells whose coordinates
satisfy all four inclusive comparisons, in their original row-major order,
without altering any kept value. -/
lemma cells_whereDrop (b : BBox) (lats lons : List ℚ) (vs : Vals)
    (h1 : vs.length = lats.length) (h2 : ∀ r ∈ vs, r.length = lons.length) :
    cells (lats.filter (fun la => rowKept b lons la))
        (lons.filter (fun lo => colKept b lats lo))
        (whereDropVals b lats lons vs)
      = (cells lats lons vs).filter (fun c => bboxMask b c.1 c.2.1) := by
  unfold cells whereDropVals
  rw [filter_zip_map (fun la => rowKept b lons la)
      (fun p => ((lons.zip p.2).filter (fun q => colKept b lats q.1)).map
        (fun q => if bboxMask b p.1 q.1 then q.2 else none)) lats vs h1.symm]
  rw [flatMap_of_map]
  rw [flatMap_filter]
  rw [filter_flatMap]
  apply flatMap_congr_mem
  intro p hp
  obtain ⟨la, r⟩ := p
  have hmem := List.of_mem_zip hp
  rw [filter_of_map]
  exact row_case b lats lons r la hmem.1 (h2 r hmem.2)

/-- Every point extracted from a bounding-box-filtered view carries
coordinates drawn from the filtered axes, hence inside the box. -/
lemma mem_extract_whereDrop {b : BBox} {ds : Dataset} {v : String} {p : PointFeature}
    (hp : p ∈ extract_points (Dataset.whereDrop b ds) v) :
    InLat b p.lat ∧ InLon b p.lon := by
  unfold extract_points at hp
  rw [List.mem_flatMap] at hp
  obtain ⟨pr, hpr, hin⟩ := hp
  rw [List.mem_filterMap] at hin
  obtain ⟨q, hq, hgq⟩ := hin
  obtain ⟨la, r⟩ := pr
  obtain ⟨lo, w⟩ := q
  cases w with
  | none => simp at hgq
  | some x =>
    simp only [Option.map_some] at hgq
    cases hgq
    have hla : la ∈ (Dataset.whereDrop b ds).lats := (List.of_mem_zip hpr).1
    have hlo : lo ∈ (Dataset.whereDrop b ds).lons := (List.of_mem_zip hq).1
    have hrk : rowKept b ds.lons la = true := by
      have := List.mem_filter.mp hla
      exact this.2
    have hck : colKept b ds.lats lo = true := by
      have := List.mem_filter.mp hlo
      exact this.2
    exact ⟨((rowKept_iff b ds.lons la).mp hrk).1, ((colKept_iff b ds.lats lo).mp hck).1⟩

lemma validate_of_size_zero (b : BBox) (ds : Dataset) (v : String)
    (h : varSize (getVals (Dataset.whereDrop b ds) v) = 0) :
    validate_in_bbox ds v b = (false, 0, Dataset.whereDrop b ds) := by
  simp [validate_in_bbox, h]

lemma validate_of_not_contains (b : BBox) (ds : Dataset) (v : String)
    (h : (varNames (Dataset.whereDrop b ds)).contains v = false) :
    validate_in_bbox ds v b = (false, 0, Dataset.whereDrop b ds) := by
  have h' : v ∉ varNames (Dataset.whereDrop b ds) := by simpa using h
  simp [validate_in_bbox, h']

lemma validate_of_count_zero (b : BBox) (ds : Dataset) (v : String)
    (h : validCount (getVals (Dataset.whereDrop b ds) v) = 0) :
    validate_in_bbox ds v b = (false, 0, Dataset.whereDrop b ds) := by
  by_cases h1 : v ∈ varNames (Dataset.whereDrop b ds)
  · by_cases h2 : varSize (getVals (Dataset.whereDrop b ds) v) = 0
    · simp [validate_in_bbox, h1, h2]
    · simp [validate_in_bbox, h1, h2, h]
  · simp [validate_in_bbox, h1]

lemma validate_of_count_pos (b : BBox) (ds : Dataset) (v : String)
    (hcont : (varNames (Dataset.whereDrop b ds)).contains v = true)
    (hsize : varSize (getVals (Dataset.whereDrop b ds) v) ≠ 0)
    (hcnt : 0 < validCount (getVals (Dataset.whereDrop b ds) v)) :
    validate_in_bbox ds v b
      = (true, validCount (getVals (Dataset.whereDrop b ds) v), Dataset.whereDrop b ds) := by
  have h' : v ∈ varNames (Dataset.whereDrop b ds) := by simpa using hcont
  simp [validate_in_bbox, h', hsize, hcnt]

/-- When the box misses the latitude range or the longitude range entirely,
the filtered variable has zero size (`drop=True` empties the axes). -/
lemma varSize_whereDrop_eq_zero (b : BBox) (ds : Dataset) (v : String)
    (h : (∀ la ∈ ds.lats, ¬ InLat b la) ∨ (∀ lo ∈ ds.lons, ¬ InLon b lo)) :
    varSize (getVals (Dataset.whereDrop b ds) v) = 0 := by
  rw [getVals_whereDrop]
  unfold whereDropVals varSize
  rcases h with h | h
  · have hnil : (ds.lats.zip (getVals ds v)).filter
        (fun p => rowKept b ds.lons p.1) = [] := by
      rw [List.filter_eq_nil_iff]
      rintro ⟨la, r⟩ hp hrk
      exact h la (List.of_mem_zip hp).1 ((rowKept_iff b ds.lons la).mp hrk).1
    rw [hnil]
    rfl
  · apply List.sum_eq_zero
    intro n hn
    rw [List.map_map, List.mem_map] at hn
    obtain ⟨p, _, hlen⟩ := hn
    have hnil : (ds.lons.zip p.2).filter (fun q => colKept b ds.lats q.1) = [] := by
      rw [List.filter_eq_nil_iff]
      rintro ⟨lo, w⟩ hq hck
      exact h lo (List.of_mem_zip hq).1 ((colKept_iff b ds.lats lo).mp hck).1
    simp only [Function.comp] at hlen
    rw [hnil] at hlen
    simpa using hlen.symm

lemma validate_snd_snd (ds : Dataset) (v : String) (b : BBox) :
    (validate_in_bbox ds v b).2.2 = Dataset.whereDrop b ds := by
  simp only [validate_in_bbox]
  split
  · rfl
  · split <;> rfl

/-- C1: the Bounding-Box Validator filters to exactly the cells whose
coordinates satisfy `south ≤ lat ≤ north` and `west ≤ lon ≤ east` (all four
bounds inclusive), returns `(false, 0)` when the variable is absent from the
filtered view or has zero elements, `(false, 0)` when every remaining value
is the NaN sentinel, and otherwise `(true, count)` where `count` is the exact
number of non-sentinel cells of the filtered variable. -/
theorem C1_bbox_validator (b : BBox) (ds : Dataset) (v : String) (hwf : WF ds v) :
    (cells (Dataset.whereDrop b ds).lats (Dataset.whereDrop b ds).lons
        (getVals (Dataset.whereDrop b ds) v)
      = (cells ds.lats ds.lons (getVals ds v)).filter (fun c => bboxMask b c.1 c.2.1))
    ∧ ((varNames (Dataset.whereDrop b ds)).contains v = false
        ∨ varSize (getVals (Dataset.whereDrop b ds) v) = 0 →
        validate_in_bbox ds v b = (false, 0, Dataset.whereDrop b ds))
    ∧ (validCount (getVals (Dataset.whereDrop b ds) v) = 0 →
        validate_in_bbox ds v b = (false, 0, Dataset.whereDrop b ds))
    ∧ ((varNames (Dataset.whereDrop b ds)).contains v = true →
        varSize (getVals (Dataset.whereDrop b ds) v) ≠ 0 →
        0 < validCount (getVals (Dataset.whereDrop b ds) v) →
        validate_in_bbox ds v b
          = (true, validCount (getVals (Dataset.whereDrop b ds) v),
             Dataset.whereDrop b ds)) := by
  obtain ⟨h1, h2⟩ := hwf
  refine ⟨?_, ?_, validate_of_count_zero b ds v, validate_of_count_pos b ds v⟩
  · rw [getVals_whereDrop]
    exact cells_whereDrop b ds.lats ds.lons (getVals ds v) h1 h2
  · rintro (h | h)
    · exact validate_of_not_contains b ds v h
    · exact validate_of_size_zero b ds v h

theorem C1_witness :
    WF scenarioA "Aerosol_Optical_Depth_550"
    ∧ cells (Dataset.whereDrop SEATTLE_BBOX scenarioA).lats
        (Dataset.whereDrop SEATTLE_BBOX scenarioA).lons
        (getVals (Dataset.whereDrop SEATTLE_BBOX scenarioA) "Aerosol_Optical_Depth_550")
      = (cells scenarioA.lats scenarioA.lons
          (getVals scenarioA "Aerosol_Optical_Depth_550")).filter
          (fun c => bboxMask SEATTLE_BBOX c.1 c.2.1) :=
  ⟨by with_unfolding_all decide,
   (C1_bbox_validator SEATTLE_BBOX scenarioA "Aerosol_Optical_Depth_550"
     (by with_unfolding_all decide)).1⟩

/-- C2: every Point Feature extracted from the filtered view produced by
validating a dataset against a bounding box has latitude within
`[south, north]` and longitude within `[west, east]`; no emitted point lies
outside the box. -/
theorem C2_points_inside_bbox (b : BBox) (ds : Dataset) (v : String) (p : PointFeature)
    (hp : p ∈ extract_points (validate_in_bbox ds v b).2.2 v) :
    b.south ≤ p.lat ∧ p.lat ≤ b.north ∧ b.west ≤ p.lon ∧ p.lon ≤ b.east := by
  rw [validate_snd_snd] at hp
  obtain ⟨⟨h1, h2⟩, h3, h4⟩ := mem_extract_whereDrop hp
  exact ⟨h1, h2, h3, h4⟩

theorem C2_witness :
    ({ lat := 47.5, lon := -122.3, value := 0.15 } : PointFeature)
      ∈ extract_points
          (validate_in_bbox scenarioA "Aerosol_Optical_Depth_550" SEATTLE_BBOX).2.2
          "Aerosol_Optical_Depth_550"
    ∧ SEATTLE_BBOX.south ≤ (47.5 : ℚ) ∧ (47.5 : ℚ) ≤ SEATTLE_BBOX.north
    ∧ SEATTLE_BBOX.west ≤ (-122.3 : ℚ) ∧ (-122.3 : ℚ) ≤ SEATTLE_BBOX.east :=
  ⟨by with_unfolding_all decide,
   C2_points_inside_bbox SEATTLE_BBOX scenarioA "Aerosol_Optical_Depth_550"
     { lat := 47.5, lon := -122.3, value := 0.15 } (by with_unfolding_all decide)⟩

/-- C3: on the concrete 2x2 grid (Scenario A) validation yields
`(true, 1)` and extraction yields exactly the point (47.5, -122.3, 0.15);
with every value NaN (Scenario B) validation yields `(false, 0)` and
extraction yields no points. -/
theorem C3_concrete_scenarios :
    (validate_in_bbox scenarioA "Aerosol_Optical_Depth_550" SEATTLE_BBOX).1 = true
    ∧ (validate_in_bbox scenarioA "Aerosol_Optical_Depth_550" SEATTLE_BBOX).2.1 = 1
    ∧ extract_points (Dataset.whereDrop SEATTLE_BBOX scenarioA) "Aerosol_Optical_Depth_550"
        = [{ lat := 47.5, lon := -122.3, value := 0.15 }]
    ∧ (validate_in_bbox scenarioB "Aerosol_Optical_Depth_550" SEATTLE_BBOX).1 = false
    ∧ (validate_in_bbox scenarioB "Aerosol_Optical_Depth_550" SEATTLE_BBOX).2.1 = 0
    ∧ extract_points (Dataset.whereDrop SEATTLE_BBOX scenarioB) "Aerosol_Optical_Depth_550"
        = [] := by
  with_unfolding_all decide

/-- The box used by Scenario D style inputs: it lies entirely north of the
test grid's latitude range. -/
def disjointBox : BBox := { west := -122.4, south := 48, east := -122.2, north := 49 }

/-- C6: when the bounding box misses the dataset's coordinate range, the
filtered view's variable has zero size and the validator returns
`(false, 0, filtered_view)` as a normal result (the embedding is total: no
zero-size-array reduction is ever attempted), and the whole per-file check
answers `False` rather than propagating an error. -/
theorem C6_zero_size_is_normal (b : BBox) (ds : Dataset) (v : String)
    (h : (∀ la ∈ ds.lats, ¬ InLat b la) ∨ (∀ lo ∈ ds.lons, ¬ InLon b lo)) :
    varSize (getVals (Dataset.whereDrop b ds) v) = 0
    ∧ validate_in_bbox ds v b = (false, 0, Dataset.whereDrop b ds)
    ∧ ∀ cands, check_file_for_data b cands ds = false := by
  refine ⟨varSize_whereDrop_eq_zero b ds v h,
    validate_of_size_zero b ds v (varSize_whereDrop_eq_zero b ds v h), ?_⟩
  intro cands
  unfold check_file_for_data
  cases hfv : cands.find? (fun c => (varNames ds).contains c) with
  | none => rfl
  | some w =>
    rcases hfc : find_coordinates ds with ⟨o1, o2⟩
    have hw := validate_of_size_zero b ds w (varSize_whereDrop_eq_zero b ds w h)
    cases o1 <;> cases o2 <;> simp [hw]

theorem C6_witness :
    varSize (getVals (Dataset.whereDrop disjointBox scenarioA)
      "Aerosol_Optical_Depth_550") = 0
    ∧ validate_in_bbox scenarioA "Aerosol_Optical_Depth_550" disjointBox
        = (false, 0, Dataset.whereDrop disjointBox scenarioA)
    ∧ ∀ cands, check_file_for_data disjointBox cands scenarioA = false :=
  C6_zero_size_is_normal disjointBox scenarioA "Aerosol_Optical_Depth_550"
    (Or.inl (by with_unfolding_all decide))

/-- C7: extracting the Point Features of a filtered view and re-applying the
same bounding-box filter to that point list changes nothing: the second
filtering pass keeps every point. -/
theorem C7_refilter_fixpoint (b : BBox) (ds : Dataset) (v : String) :
    filter_points b (extract_points (Dataset.whereDrop b ds) v)
      = extract_points (Dataset.whereDrop b ds) v := by
  unfold filter_points
  rw [List.filter_eq_self]
  intro p hp
  obtain ⟨h1, h2⟩ := mem_extract_whereDrop hp
  exact (bboxMask_iff b p.lat p.lon).mpr ⟨h1, h2⟩

lemma find?_four (cs : List String) (a b c d : String) :
    ([a, b, c, d].find? (fun n => cs.contains n))
      = (if cs.contains a then some a
         else if cs.contains b then some b
         else if cs.contains c then some c
         else if cs.contains d then some d else none) := by
  by_cases h1 : a ∈ cs <;> by_cases h2 : b ∈ cs <;> by_cases h3 : c ∈ cs <;>
    by_cases h4 : d ∈ cs <;> simp [List.find?, h1, h2, h3, h4]

/-- A dataset whose coordinate names are LAT and lon, the spec's example for
case-independent per-axis resolution. -/
def dsLATlon : Dataset :=
  { coords := ["LAT", "lon"], lats := [], lons := [], data_vars := [], attrs := [] }

/-- A dataset exposing both the lat and the latitude coordinate names: the
two resolver variants disagree on it. -/
def dsBothAliases : Dataset :=
  { coords := ["lat", "latitude", "lon"], lats := [], lons := [], data_vars := [], attrs := [] }

/-- C4 counterexample: the nc_read.py resolver checks `latitude` before
`lat`, so on a dataset exposing both it returns "latitude" where the claimed
priority order (lat first, the order of find_coordinates) returns "lat". -/
theorem C4_counterexample :
    ncRead_find_coordinates dsBothAliases = (some "latitude", some "lon")
    ∧ find_coordinates dsBothAliases = (some "lat", some "lon")
    ∧ ("latitude" : String) ≠ "lat" := by
  refine ⟨rfl, rfl, ?_⟩
  decide

/-- C4 (amended): find_coordinates — the Coordinate Resolver of the GeoJSON
exporter and of the directory checker — checks the fixed alias lists
lat, latitude, Latitude, LAT and lon, longitude, Longitude, LON in that
priority order, returning per axis the first alias present among the
dataset's coordinate names; a dataset exposing LAT and lon resolves to
("LAT", "lon"); and the combined resolution is NotFound exactly when either
axis has no matching alias.  (The nc_read.py variant instead tries latitude
before lat and longitude before lon.) -/
theorem C4_coordinate_resolver :
    (∀ ds : Dataset,
      find_coordinates ds =
        ((if ds.coords.contains "lat" then some "lat"
          else if ds.coords.contains "latitude" then some "latitude"
          else if ds.coords.contains "Latitude" then some "Latitude"
          else if ds.coords.contains "LAT" then some "LAT" else none),
         (if ds.coords.contains "lon" then some "lon"
          else if ds.coords.contains "longitude" then some "longitude"
          else if ds.coords.contains "Longitude" then some "Longitude"
          else if ds.coords.contains "LON" then some "LON" else none)))
    ∧ find_coordinates dsLATlon = (some "LAT", some "lon")
    ∧ (∀ ds : Dataset,
        resolve_coordinates ds = none ↔
          (find_coordinates ds).1 = none ∨ (find_coordinates ds).2 = none) := by
  refine ⟨?_, rfl, ?_⟩
  · intro ds
    show (latNamesList.find? (fun n => ds.coords.contains n),
          lonNamesList.find? (fun n => ds.coords.contains n)) = _
    rw [show latNamesList = ["lat", "latitude", "Latitude", "LAT"] from rfl,
      show lonNamesList = ["lon", "longitude", "Longitude", "LON"] from rfl,
      find?_four, find?_four]
  · intro ds
    unfold resolve_coordinates
    rcases find_coordinates ds with ⟨o1, o2⟩
    cases o1 <;> cases o2 <;> simp

lemma find?_eq_some_split {α : Type} {p : α → Bool} :
    ∀ {l : List α} {a : α}, l.find? p = some a →
      p a = true ∧ ∃ pre post, l = pre ++ a :: post ∧ ∀ x ∈ pre, p x = false := by
  intro l
  induction l with
  | nil =>
    intro a h
    simp at h
  | cons x t ih =>
    intro a h
    by_cases hx : p x = true
    · rw [List.find?_cons_of_pos t hx] at h
      cases h
      exact ⟨hx, [], t, rfl, by simp⟩
    · rw [List.find?_cons_of_neg t hx] at h
      obtain ⟨hpa, pre, post, heq, hpre⟩ := ih h
      refine ⟨hpa, x :: pre, post, by rw [heq, List.cons_append], ?_⟩
      intro y hy
      rcases List.mem_cons.mp hy with rfl | hy
      · simpa using hx
      · exact hpre y hy

/-- C5: the Variable Resolver scan returns the first candidate, in the
caller-supplied priority order, that is present among the dataset's variable
names (every earlier candidate is absent), and returns NotFound exactly when
no candidate is present — presence is exact string equality, so visually
similar names do not match. -/
theorem C5_variable_resolver (cands names : List String) :
    (∀ v, find_variable cands names = some v →
      v ∈ names ∧ ∃ pre post, cands = pre ++ v :: post ∧ ∀ c ∈ pre, c ∉ names)
    ∧ (find_variable cands names = none ↔ ∀ c ∈ cands, c ∉ names) := by
  constructor
  · intro v h
    obtain ⟨hpv, pre, post, heq, hpre⟩ := find?_eq_some_split h
    refine ⟨List.elem_iff.mp hpv, pre, post, heq, ?_⟩
    intro c hc
    have := hpre c hc
    simpa using this
  · unfold find_variable
    rw [List.find?_eq_none]
    constructor
    · intro h c hc
      have := h c hc
      simpa using this
    · intro h c hc
      simpa using h c hc

theorem C5_witness :
    ("COMBINE_AOD_550_AVG" : String) ∈ ["COMBINE_AOD_550_AVG"]
    ∧ ∃ pre post, AOD_VARIABLE_CANDIDATES = pre ++ "COMBINE_AOD_550_AVG" :: post
        ∧ ∀ c ∈ pre, c ∉ ["COMBINE_AOD_550_AVG"] :=
  (C5_variable_resolver AOD_VARIABLE_CANDIDATES ["COMBINE_AOD_550_AVG"]).1
    "COMBINE_AOD_550_AVG" rfl

/-- C8 counterexample: the nc_read_convert.py exporter (one of the two cited
Point-Feature Extractor implementations) emits a metadata record without the
`variable_name` key, so its output does not have the claimed five-key
metadata shape. -/
theorem C8_counterexample :
    (convert_export_to_geojson SEATTLE_BBOX scenarioA "file.nc").map
        (fun fc => fc.metadata.map Prod.fst)
      = some ["source_product", "time_start", "time_end", "variable_description"]
    ∧ (["source_product", "time_start", "time_end", "variable_description"] : List String)
      ≠ ["source_product", "time_start", "time_end", "variable_description",
         "variable_name"] := by
  refine ⟨?_, by decide⟩
  with_unfolding_all decide

/-- C8 (amended): any document produced by the nc_read_convert_geojson.py
exporter has type FeatureCollection, metadata with exactly the keys
source_product, time_start, time_end, variable_description, variable_name
(in that order), and features that are each of type Feature with a Point
geometry whose coordinates are ordered [longitude, latitude] and whose
properties carry the measurement value with lat and lon; the nc_read_convert.py
exporter produces the same shape except that its metadata omits
variable_name. -/
theorem C8_feature_collection_shape (b : BBox) (ds : Dataset) (basename : String) :
    (∀ fc, export_to_geojson b ds basename = some fc →
      fc.type = "FeatureCollection"
      ∧ fc.metadata.map Prod.fst
          = ["source_product", "time_start", "time_end", "variable_description",
             "variable_name"]
      ∧ ∀ f ∈ fc.features, f.type = "Feature" ∧ f.geometry.type = "Point"
          ∧ f.geometry.coordinates = [f.properties.lon, f.properties.lat])
    ∧ (∀ fc, convert_export_to_geojson b ds basename = some fc →
      fc.type = "FeatureCollection"
      ∧ fc.metadata.map Prod.fst
          = ["source_product", "time_start", "time_end", "variable_description"]
      ∧ ∀ f ∈ fc.features, f.type = "Feature" ∧ f.geometry.type = "Point"
          ∧ f.geometry.coordinates = [f.properties.lon, f.properties.lat]) := by
  constructor
  · intro fc h
    unfold export_to_geojson at h
    split at h
    · exact absurd h (by simp)
    · split at h
      · exact absurd h (by simp)
      · dsimp only at h
        split at h
        · exact absurd h (by simp)
        · split at h
          · exact absurd h (by simp)
          · cases h
            refine ⟨rfl, by simp [geojson_metadata], ?_⟩
            intro f hf
            rw [List.mem_map] at hf
            obtain ⟨p, _, rfl⟩ := hf
            exact ⟨rfl, rfl, rfl⟩
  · intro fc h
    unfold convert_export_to_geojson at h
    split at h
    · exact absurd h (by simp)
    · split at h
      · exact absurd h (by simp)
      · dsimp only at h
        split at h
        · exact absurd h (by simp)
        · split at h
          · exact absurd h (by simp)
          · cases h
            refine ⟨rfl, by simp [convert_metadata], ?_⟩
            intro f hf
            rw [List.mem_map] at hf
            obtain ⟨p, _, rfl⟩ := hf
            exact ⟨rfl, rfl, rfl⟩

/-- The document the GeoJSON exporter produces on Scenario A with source file
name `file.nc`. -/
def exportedA : FeatureCollection :=
  { type := "FeatureCollection"
    metadata := [("source_product", "file.nc"), ("time_start", "N/A"), ("time_end", "N/A"),
      ("variable_description", "Aerosol optical thickness at 550 nm"),
      ("variable_name", "Aerosol_Optical_Depth_550")]
    features := [{ type := "Feature"
                   geometry := { type := "Point", coordinates := [-122.3, 47.5] }
                   properties := { aod := 0.15, lat := 47.5, lon := -122.3 } }] }

theorem C8_witness :
    export_to_geojson SEATTLE_BBOX scenarioA "file.nc" = some exportedA
    ∧ exportedA.type = "FeatureCollection"
    ∧ exportedA.metadata.map Prod.fst
        = ["source_product", "time_start", "time_end", "variable_description",
           "variable_name"]
    ∧ ∀ f ∈ exportedA.features, f.type = "Feature" ∧ f.geometry.type = "Point"
        ∧ f.geometry.coordinates = [f.properties.lon, f.properties.lat] :=
  have h : export_to_geojson SEATTLE_BBOX scenarioA "file.nc" = some exportedA := by
    with_unfolding_all decide
  ⟨h, (C8_feature_collection_shape SEATTLE_BBOX scenarioA "file.nc").1 exportedA h⟩

/-- Python `int(str)` as parse_granule_selection uses it: surrounding
whitespace is stripped, an optional single `+`/`-` sign precedes one or more
decimal digits, anything else raises (here: `none`).  Python's underscore
digit grouping is not modelled. -/
def pyInt? (s : String) : Option ℤ :=
  let t := s.trim
  let core := if t.startsWith "-" || t.startsWith "+" then t.drop 1 else t
  if core.isEmpty then none
  else if core.all Char.isDigit then
    let n : ℤ := core.foldl (fun n c => n * 10 + ((c.toNat : ℤ) - 48)) 0
    some (if t.startsWith "-" then -n else n)
  else none

/-- The in-bounds portion of the loop
`for i in range(start, end+1): if 1 <= i <= max_index: selected.add(i)`. -/
def clampRange (m s e : ℤ) : Finset ℤ :=
  (Finset.Icc s e).filter (fun i => 1 ≤ i ∧ i ≤ m)

/-- The body of parse_granule_selection's loop over comma-separated parts:
a part containing `-` is treated as a range when it splits into exactly two
parseable integers (a backward range is swapped first); otherwise a part is a
single index kept only when in bounds; malformed parts are skipped. -/
def granulePart (m : ℤ) (acc : Finset ℤ) (part : String) : Finset ℤ :=
  if part.contains '-' then
    match part.splitOn "-" with
    | [a, c] =>
      match pyInt? a, pyInt? c with
      | some s, some e => if s > e then acc ∪ clampRange m e s else acc ∪ clampRange m s e
      | _, _ => acc
    | _ => acc
  else
    match pyInt? part with
    | some i => if 1 ≤ i ∧ i ≤ m then insert i acc else acc
    | none => acc

/-- parse_granule_selection of nasa_api_curl.py (lines 484-518): split on
commas, strip each part, accumulate a set of selected indices, and return it
as a sorted list. -/
def parse_granule_selection (input_str : String) (maxIndex : ℤ) : List ℤ :=
  (((input_str.splitOn ",").map String.trim).foldl (granulePart maxIndex) ∅).sort (· ≤ ·)

lemma granulePart_bounds (m : ℤ) (acc : Finset ℤ) (part : String)
    (h : ∀ i ∈ acc, 1 ≤ i ∧ i ≤ m) : ∀ i ∈ granulePart m acc part, 1 ≤ i ∧ i ≤ m := by
  intro i hi
  unfold granulePart at hi
  have hclamp : ∀ s e : ℤ, i ∈ acc ∪ clampRange m s e → 1 ≤ i ∧ i ≤ m := by
    intro s e hmem
    rcases Finset.mem_union.mp hmem with hmem | hmem
    · exact h i hmem
    · exact (Finset.mem_filter.mp hmem).2
  split at hi
  · split at hi
    · split at hi
      · split at hi
        · exact hclamp _ _ hi
        · exact hclamp _ _ hi
      · exact h i hi
    · exact h i hi
  · split at hi
    · split at hi
      · rcases Finset.mem_insert.mp hi with rfl | hi
        · assumption
        · exact h i hi
      · exact h i hi
    · exact h i hi

lemma foldl_granule_bounds (m : ℤ) :
    ∀ (parts : List String) (acc : Finset ℤ), (∀ i ∈ acc, 1 ≤ i ∧ i ≤ m) →
      ∀ i ∈ parts.foldl (granulePart m) acc, 1 ≤ i ∧ i ≤ m := by
  intro parts
  induction parts with
  | nil => intro acc h; simpa using h
  | cons p t ih =>
    intro acc h
    exact ih (granulePart m acc p) (granulePart_bounds m acc p h)

/-- C9: parse_granule_selection always returns a strictly increasing list of
distinct integers between 1 and max_index inclusive; a backward range such as
"7-5" is normalized to the ascending range 5..7; out-of-bounds indices are
silently excluded and malformed comma-separated parts are skipped (the
embedding is total: no exception escapes). -/
theorem C9_parse_granule_selection :
    (∀ (s : String) (m : ℤ),
      List.Sorted (· < ·) (parse_granule_selection s m)
      ∧ ∀ i ∈ parse_granule_selection s m, 1 ≤ i ∧ i ≤ m)
    ∧ parse_granule_selection "7-5" 10 = [5, 6, 7]
    ∧ parse_granule_selection "1,3,foo,5-7,99" 8 = [1, 3, 5, 6, 7] := by
  refine ⟨fun s m => ⟨Finset.sort_sorted_lt _, ?_⟩, ?_, ?_⟩
  · intro i hi
    rw [parse_granule_selection, Finset.mem_sort] at hi
    exact foldl_granule_bounds m _ ∅ (by simp) i hi
  · with_unfolding_all decide
  · with_unfolding_all decide

theorem C9_witness :
    (5 : ℤ) ∈ parse_granule_selection "7-5" 10 ∧ (1 : ℤ) ≤ 5 ∧ (5 : ℤ) ≤ 10 :=
  have hm : (5 : ℤ) ∈ parse_granule_selection "7-5" 10 := by
    rw [C9_parse_granule_selection.2.1]
    decide
  ⟨hm, (C9_parse_granule_selection.1 "7-5" 10).2 5 hm⟩

/-- `ds.sel({dim: slice(lo, hi)})` on a monotonically increasing coordinate
axis (the form used by nc_read.py save_data option 5): label-based slicing
takes the entries from the first one not below `lo` through the last one not
above `hi`, both endpoints inclusive. -/
def sel_slice (lo hi : ℚ) (xs : List ℚ) : List ℚ :=
  (xs.dropWhile (fun x => decide (x < lo))).takeWhile (fun x => decide (x ≤ hi))

lemma rowKept_eq (b : BBox) (lons : List ℚ) (la : ℚ) :
    rowKept b lons la = (inLatB b la && lons.any (inLonB b)) := by
  cases h : inLatB b la <;> simp [rowKept, bboxMask, h]

lemma colKept_eq (b : BBox) (lats : List ℚ) (lo : ℚ) :
    colKept b lats lo = (inLonB b lo && lats.any (inLatB b)) := by
  cases h : inLonB b lo <;> simp [colKept, bboxMask, h]

lemma sorted_takeWhile_eq_filter (hi : ℚ) :
    ∀ xs : List ℚ, List.Sorted (· ≤ ·) xs →
      xs.takeWhile (fun x => decide (x ≤ hi)) = xs.filter (fun x => decide (x ≤ hi)) := by
  intro xs
  induction xs with
  | nil => intro _; rfl
  | cons x t ih =>
    intro hs
    rw [List.sorted_cons] at hs
    obtain ⟨hall, hst⟩ := hs
    by_cases hx : x ≤ hi
    · simp [List.takeWhile_cons, List.filter_cons, hx, ih hst]
    · have hnil : t.filter (fun y => decide (y ≤ hi)) = [] := by
        rw [List.filter_eq_nil_iff]
        intro a ha
        simp only [decide_eq_true_eq]
        exact fun hle => hx (le_trans (hall a ha) hle)
      simp [List.takeWhile_cons, List.filter_cons, hx, hnil]

lemma sorted_slice_eq_filter (lo hi : ℚ) :
    ∀ xs : List ℚ, List.Sorted (· ≤ ·) xs →
      sel_slice lo hi xs = xs.filter (fun x => decide (lo ≤ x) && decide (x ≤ hi)) := by
  intro xs
  induction xs with
  | nil => intro _; rfl
  | cons x t ih =>
    intro hs
    rw [List.sorted_cons] at hs
    obtain ⟨hall, hst⟩ := hs
    by_cases hx : x < lo
    · have hdrop : sel_slice lo hi (x :: t) = sel_slice lo hi t := by
        unfold sel_slice
        rw [List.dropWhile_cons_of_pos (by simpa using hx)]
      rw [hdrop, ih hst, List.filter_cons]
      have : ¬ lo ≤ x := not_le.mpr hx
      simp [this]
    · have hlox : lo ≤ x := not_lt.mp hx
      have hdrop : sel_slice lo hi (x :: t)
          = (x :: t).takeWhile (fun y => decide (y ≤ hi)) := by
        unfold sel_slice
        rw [List.dropWhile_cons_of_neg (by simpa using hx)]
      by_cases hxhi : x ≤ hi
      · have h1 := sorted_takeWhile_eq_filter hi t hst
        have h2 : t.filter (fun y => decide (y ≤ hi))
            = t.filter (fun y => decide (lo ≤ y) && decide (y ≤ hi)) := by
          apply filter_congr_mem
          intro a ha
          have : lo ≤ a := le_trans hlox (hall a ha)
          simp [this]
        rw [hdrop, List.takeWhile_cons, List.filter_cons]
        simp [hxhi, hlox, h1, h2]
      · have hnil : t.filter (fun y => decide (lo ≤ y) && decide (y ≤ hi)) = [] := by
          rw [List.filter_eq_nil_iff]
          intro a ha
          simp only [Bool.and_eq_true, decide_eq_true_eq, not_and]
          exact fun _ hle => hxhi (le_trans (hall a ha) hle)
        rw [hdrop, List.takeWhile_cons, List.filter_cons]
        simp [hxhi, hnil]

/-- A strictly ascending 1x1 grid on which the two filters disagree: the box
misses the latitude range but contains the longitude. -/
def dsC10 : Dataset :=
  { coords := ["lat", "lon"], lats := [0], lons := [0]
    data_vars := [("Aerosol_Optical_Depth_550", { vals := [[some 1]], attrs := [] })]
    attrs := [] }

/-- The box for the C10 counterexample: latitudes [2,3] (missing the grid),
longitudes [-1,1] (containing the grid's longitude). -/
def boxC10 : BBox := { west := -1, south := 2, east := 1, north := 3 }

/-- C10 counterexample: on a strictly ascending grid whose latitude axis lies
outside the box, the mask-based filter (drop=True) empties the longitude
axis too, while the slice-based filter keeps the in-range longitude 0 — the
two implementations do not retain the same longitude coordinate values. -/
theorem C10_counterexample :
    List.Sorted (· < ·) dsC10.lats ∧ List.Sorted (· < ·) dsC10.lons
    ∧ (Dataset.whereDrop boxC10 dsC10).lons = []
    ∧ sel_slice boxC10.west boxC10.east dsC10.lons = [0]
    ∧ (([] : List ℚ) ≠ [0]) := by
  refine ⟨by simp [dsC10], by simp [dsC10], ?_, ?_, by simp⟩
  · with_unfolding_all decide
  · with_unfolding_all decide

/-- C10 (amended): on grids whose latitude and longitude axes are strictly
ascending, whenever at least one latitude and at least one longitude lie
inside the box, the slice-based filter of nc_read.py and the mask-based
filter of the checker retain exactly the same latitude and longitude
coordinate values; when one axis has no coordinate in the box the mask-based
filter empties both axes while the slice-based filter keeps the other axis's
in-range values (see the counterexample). -/
theorem C10_slice_mask_equivalence (b : BBox) (ds : Dataset)
    (hlat : List.Sorted (· < ·) ds.lats) (hlon : List.Sorted (· < ·) ds.lons)
    (hla : ∃ la ∈ ds.lats, InLat b la) (hlo : ∃ lo ∈ ds.lons, InLon b lo) :
    (Dataset.whereDrop b ds).lats = sel_slice b.south b.north ds.lats
    ∧ (Dataset.whereDrop b ds).lons = sel_slice b.west b.east ds.lons := by
  have hanyLat : ds.lats.any (inLatB b) = true := by
    rw [List.any_eq_true]
    obtain ⟨la, h1, h2⟩ := hla
    exact ⟨la, h1, (inLatB_iff b la).mpr h2⟩
  have hanyLon : ds.lons.any (inLonB b) = true := by
    rw [List.any_eq_true]
    obtain ⟨lo, h1, h2⟩ := hlo
    exact ⟨lo, h1, (inLonB_iff b lo).mpr h2⟩
  constructor
  · show ds.lats.filter (fun la => rowKept b ds.lons la) = _
    have hcong : ∀ la ∈ ds.lats,
        (fun la => rowKept b ds.lons la) la = (fun la => inLatB b la) la := by
      intro la _
      show rowKept b ds.lons la = inLatB b la
      rw [rowKept_eq, hanyLon, Bool.and_true]
    rw [filter_congr_mem hcong, sorted_slice_eq_filter b.south b.north ds.lats hlat.le_of_lt]
    exact filter_congr_mem (fun a _ => rfl)
  · show ds.lons.filter (fun lo => colKept b ds.lats lo) = _
    have hcong : ∀ lo ∈ ds.lons,
        (fun lo => colKept b ds.lats lo) lo = (fun lo => inLonB b lo) lo := by
      intro lo _
      show colKept b ds.lats lo = inLonB b lo
      rw [colKept_eq, hanyLat, Bool.and_true]
    rw [filter_congr_mem hcong, sorted_slice_eq_filter b.west b.east ds.lons hlon.le_of_lt]
    exact filter_congr_mem (fun a _ => rfl)

theorem C10_witness :
    (Dataset.whereDrop SEATTLE_BBOX scenarioA).lats
        = sel_slice SEATTLE_BBOX.south SEATTLE_BBOX.north scenarioA.lats
    ∧ (Dataset.whereDrop SEATTLE_BBOX scenarioA).lons
        = sel_slice SEATTLE_BBOX.west SEATTLE_BBOX.east scenarioA.lons :=
  C10_slice_mask_equivalence SEATTLE_BBOX scenarioA
    (by with_unfolding_all decide) (by with_unfolding_all decide)
    (by with_unfolding_all decide) (by with_unfolding_all decide)

end NCRead
